import Mathlib

/-!
Verification development for the `outlets` weather pipeline.

Shallow embedding of the repository's two core modules:

* `scripts/fetch_weather.py` — outlet-catalog loading (`load_outlets`),
  window filtering and record mapping (`parse_weather_data`), CSV
  serialization (`save_to_csv`);
* `scripts/load_csv_data.py` — dimension/fact table loads
  (`load_csv_to_table`), the weather-artifact append path, and the `main`
  entry point.

Python floats are modelled as `Rat`, database/CSV rows as association
lists from column name to cell string, timestamps as a `Nat` encoding
that preserves the chronological order `datetime` comparison uses.
-/

namespace Outlets

/-! ### Timestamps

`parse_weather_data` calls `datetime.fromisoformat(time_str.replace('Z', ''))`
and compares the result with the window bounds.  We model a datetime as a
`Nat` obtained from the `(year, month, day, hour, minute, second)` tuple by
a strictly monotone (base-mixed) encoding, so that `Nat` order coincides
with Python's tuple-wise `datetime` comparison on valid dates. -/

/-- Monotone encoding of a date-time tuple into `Nat` (seconds count in a
calendar where every month has 31 days; order-isomorphic to tuple order). -/
def dtEncode (y mo d h mi s : Nat) : Nat :=
  ((((y * 12 + (mo - 1)) * 31 + (d - 1)) * 24 + h) * 60 + mi) * 60 + s

/-- Value of a decimal digit character, `none` on a non-digit. -/
def digit? (c : Char) : Option Nat :=
  if c.isDigit then some (c.toNat - 48) else none

/-- Model of Python's `datetime.fromisoformat`, restricted to the shapes
this pipeline feeds it: `YYYY-MM-DD`, `YYYY-MM-DDTHH:MM`, and
`YYYY-MM-DDTHH:MM:SS` (the Open-Meteo hourly arrays use the second shape).
Returns the order-preserving `Nat` encoding of the parsed datetime, `none`
when parsing fails (Python raises `ValueError`). -/
def fromisoformat (str : String) : Option Nat :=
  match str.toList with
  | y1 :: y2 :: y3 :: y4 :: '-' :: m1 :: m2 :: '-' :: d1 :: d2 :: rest => do
    let a ← digit? y1
    let b ← digit? y2
    let c ← digit? y3
    let d ← digit? y4
    let y := ((a * 10 + b) * 10 + c) * 10 + d
    let me1 ← digit? m1
    let me2 ← digit? m2
    let mo := me1 * 10 + me2
    let de1 ← digit? d1
    let de2 ← digit? d2
    let da := de1 * 10 + de2
    if 1 ≤ mo ∧ mo ≤ 12 ∧ 1 ≤ da ∧ da ≤ 31 then
      match rest with
      | [] => some (dtEncode y mo da 0 0 0)
      | 'T' :: h1 :: h2 :: ':' :: n1 :: n2 :: rest2 => do
        let he1 ← digit? h1
        let he2 ← digit? h2
        let h := he1 * 10 + he2
        let ne1 ← digit? n1
        let ne2 ← digit? n2
        let mi := ne1 * 10 + ne2
        if h ≤ 23 ∧ mi ≤ 59 then
          match rest2 with
          | [] => some (dtEncode y mo da h mi 0)
          | ':' :: s1 :: s2 :: [] => do
            let se1 ← digit? s1
            let se2 ← digit? s2
            let s := se1 * 10 + se2
            if s ≤ 59 then some (dtEncode y mo da h mi s) else none
          | _ => none
        else none
      | _ => none
    else none
  | _ => none

/-- Model of `time_str.replace('Z', '')`: the pattern is the single
character `Z`, so the replacement is exactly the removal of every `Z`. -/
def stripZ (s : String) : String :=
  ⟨s.toList.filter (fun c => c ≠ 'Z')⟩

/-! ### Data model -/

/-- One row of the outlet catalog CSV as `load_outlets` reads it:
`id` already parsed by `int(row['id'])`; `latitude`/`longitude` are the raw
cells, with `none` modelling the empty string (Python coerces it to `0.0`
via `float(row['latitude']) if row['latitude'] else 0.0`). -/
structure RawRow where
  id : Int
  name : String
  latitude : Option Rat
  longitude : Option Rat
deriving DecidableEq

/-- An outlet as stored in the `outlets` dict of `load_outlets`. -/
structure Outlet where
  id : Int
  name : String
  latitude : Rat
  longitude : Rat
deriving DecidableEq

/-- Parsed latitude of a catalog row (empty cell coerces to `0.0`). -/
def rowLat (r : RawRow) : Rat := r.latitude.getD 0

/-- Parsed longitude of a catalog row (empty cell coerces to `0.0`). -/
def rowLon (r : RawRow) : Rat := r.longitude.getD 0

/-- The outlet dictionary entry built from a catalog row. -/
def rowOutlet (r : RawRow) : Outlet :=
  ⟨r.id, r.name, rowLat r, rowLon r⟩

/-- A catalog row survives the coordinate filter of `load_outlets` when not
both parsed coordinates are `0.0` (the sentinel "no location"). -/
def validRow (r : RawRow) : Bool :=
  decide (¬(rowLat r = 0 ∧ rowLon r = 0))

/-- Loop of `load_outlets`: iterate rows, skip sentinel coordinates, keep
the first occurrence of each id (`outlets` is a Python dict, insertion
ordered; `acc` is its value list). -/
def loadOutletsAux : List RawRow → List Outlet → List Outlet
  | [], acc => acc
  | r :: rest, acc =>
    if rowLat r = 0 ∧ rowLon r = 0 then
      loadOutletsAux rest acc
    else if acc.any (fun o => o.id == r.id) then
      loadOutletsAux rest acc
    else
      loadOutletsAux rest (acc ++ [rowOutlet r])

/-- `load_outlets` of `scripts/fetch_weather.py`: filter valid coordinates
and deduplicate by id, first occurrence wins; returns the dict's values in
insertion order. -/
def load_outlets (rows : List RawRow) : List Outlet :=
  loadOutletsAux rows []

/-- The `hourly` section of an Open-Meteo response.  An absent measurement
array is modelled as `[]`, exactly what `hourly.get(key, [])` yields; a
measurement cell may itself be JSON `null` (`Option Rat`). -/
structure Hourly where
  time : List String
  wind_speed_10m : List (Option Rat)
  temperature_2m : List (Option Rat)
  relative_humidity_2m : List (Option Rat)
deriving DecidableEq

/-- One normalized weather record as built by `parse_weather_data`. -/
structure Record where
  outlet_id : Int
  outlet_name : String
  latitude : Rat
  longitude : Rat
  time : String
  wind_speed_10m : Option Rat
  temperature_2m : Option Rat
  relative_humidity_2m : Option Rat
deriving DecidableEq

/-- Body of the `for i in range(len(times))` loop of `parse_weather_data`:
the record emitted at index `i`, or `none` when the timestamp fails to
parse (the caught `ValueError`/`AttributeError`) or falls outside the
closed window `[s, e]`.  Measurements use `arr[i] if i < len(arr) else
None`, i.e. `(arr[i]?).join`. -/
def emitAt (h : Hourly) (o : Outlet) (s e : Nat) (i : Nat) : Option Record :=
  match h.time[i]? with
  | none => none
  | some ts =>
    match fromisoformat (stripZ ts) with
    | none => none
    | some t =>
      if s ≤ t ∧ t ≤ e then
        some { outlet_id := o.id
               outlet_name := o.name
               latitude := o.latitude
               longitude := o.longitude
               time := ts
               wind_speed_10m := (h.wind_speed_10m[i]?).join
               temperature_2m := (h.temperature_2m[i]?).join
               relative_humidity_2m := (h.relative_humidity_2m[i]?).join }
      else none

/-- `parse_weather_data` of `scripts/fetch_weather.py`.  `wj = none` models
a falsy response or one without an `"hourly"` key (the guard returning
`[]`). -/
def parse_weather_data (wj : Option Hourly) (o : Outlet) (s e : Nat) :
    List Record :=
  match wj with
  | none => []
  | some h => (List.range h.time.length).filterMap (emitAt h o s e)

/-! ### CSV sink -/

/-- A CSV/database row: association list from column name to cell text. -/
abbrev Row := List (String × String)

/-- Fixed header order written by `save_to_csv`. -/
def weatherFieldnames : List String :=
  ["outlet_id", "outlet_name", "latitude", "longitude", "time",
   "wind_speed_10m", "temperature_2m", "relative_humidity_2m"]

/-- Model of Python `str()` as the csv writer applies it to a nullable
numeric cell: `None` becomes the empty cell. -/
def pyCell : Option Rat → String
  | none => ""
  | some q => toString q

/-- The CSV line `csv.DictWriter` writes for one record, in the fixed
`fieldnames` order. -/
def recordToCsvRow (r : Record) : Row :=
  [("outlet_id", toString r.outlet_id),
   ("outlet_name", r.outlet_name),
   ("latitude", toString r.latitude),
   ("longitude", toString r.longitude),
   ("time", r.time),
   ("wind_speed_10m", pyCell r.wind_speed_10m),
   ("temperature_2m", pyCell r.temperature_2m),
   ("relative_humidity_2m", pyCell r.relative_humidity_2m)]

/-- `save_to_csv` of `scripts/fetch_weather.py`: `none` models the early
return on an empty record list (no file is written); otherwise the written
artifact's data rows, in input order. -/
def save_to_csv (records : List Record) : Option (List Row) :=
  if records.isEmpty then none
  else some (records.map recordToCsvRow)

/-! ### Database model for `scripts/load_csv_data.py`

The PostgreSQL sink is modelled as an association list from table name to
row list, exposing exactly the operations the script issues: `CREATE TABLE
IF NOT EXISTS`, `TRUNCATE`, and batched `INSERT` (batching in 1000-row
chunks commits incrementally but yields the same final contents, so the
model appends all rows at once). -/

/-- In-memory relational sink: table name to current rows. -/
abbrev Database := List (String × List Row)

/-- Whether a table exists in the sink. -/
def tableExists (db : Database) (t : String) : Bool :=
  (db.find? (fun p => p.1 = t)).isSome

/-- Current rows of a table, `none` when the table does not exist. -/
def lookupTable (db : Database) (t : String) : Option (List Row) :=
  (db.find? (fun p => p.1 = t)).map (fun p => p.2)

/-- Model of `CREATE TABLE IF NOT EXISTS raw.t (...)`. -/
def createTableIfAbsent (db : Database) (t : String) : Database :=
  if tableExists db t then db else db ++ [(t, [])]

/-- Model of `TRUNCATE TABLE raw.t`. -/
def truncateTable (db : Database) (t : String) : Database :=
  db.map (fun p => if p.1 = t then (p.1, []) else p)

/-- Model of inserting `rs` at the end of table `t`. -/
def appendRows (db : Database) (t : String) (rs : List Row) : Database :=
  db.map (fun p => if p.1 = t then (p.1, p.2 ++ rs) else p)

/-- Cell of a row at a column (`row[col]` on a `DictReader` row). -/
def rowCell (r : Row) (c : String) : Option String :=
  (r.find? (fun p => p.1 = c)).map (fun p => p.2)

/-- The values tuple `[row[col] for col in columns]` inserted for one row,
keyed by its column (reserved-word quoting of `group`/`date` only changes
SQL spelling, not which column is written).  `DictReader` rows share the
header's keys, so the lookup never misses on real input; the model defaults
a missing key to the empty cell. -/
def projectRow (columns : List String) (r : Row) : Row :=
  columns.map (fun c => (c, (rowCell r c).getD ""))

/-- `load_csv_to_table` of `scripts/load_csv_data.py`.  `file = none`
models a missing source file, `some rows` its data rows.  `fault` models
an unexpected database error raised while inserting (the function installs
no handler, so it propagates, `Except.error`); the returned `Database` is
the sink state reached (the table is created and truncated before the file
is even checked). -/
def load_csv_to_table (fault : Bool) (db : Database) (t : String)
    (file : Option (List Row)) : Except Unit Bool × Database :=
  let db1 := truncateTable (createTableIfAbsent db t) t
  match file with
  | none => (Except.ok false, db1)
  | some [] => (Except.ok false, db1)
  | some (r0 :: rest) =>
    if fault then (Except.error (), db1)
    else
      let columns := r0.map (fun p => p.1)
      (Except.ok true,
       appendRows db1 t ((r0 :: rest).map (projectRow columns)))

/-- The fixed table list `CSV_FILES` of the loader (the csv paths are in
one-to-one correspondence with the table names). -/
def CSV_FILES : List String :=
  ["org", "platform", "outlet", "listing", "orders",
   "orders_daily", "ratings_agg", "rank"]

/-- Column rename applied on the weather path: `'datetime' if col ==
'time' else col`. -/
def renameCol (c : String) : String :=
  if c = "time" then "datetime" else c

/-- The row inserted into `raw.weather` for one artifact row: column names
renamed via `renameCol`, values taken from the artifact's columns in
order. -/
def weatherInsertRow (columns : List String) (r : Row) : Row :=
  columns.map (fun c => (renameCol c, (rowCell r c).getD ""))

/-- Loading one weather artifact inside `main`'s weather loop: an empty
artifact inserts nothing (`✗ No data`); otherwise every row is appended to
`raw.weather` with the `time` column renamed to `datetime`.  Returns the
new sink state and the row count added to `weather_count`. -/
def loadOneWeatherArtifact (db : Database) (rows : List Row) :
    Database × Nat :=
  match rows with
  | [] => (db, 0)
  | r0 :: rest =>
    (appendRows db "weather"
       ((r0 :: rest).map (weatherInsertRow (r0.map (fun p => p.1)))),
     (r0 :: rest).length)

/-- The weather-loading phase of `main` once artifacts were found: create
`raw.weather` if absent (never truncate), then load each artifact in
sorted order, accumulating `weather_count`. -/
def loadWeatherPhase (db : Database) (arts : List (List Row)) :
    Database × Nat :=
  (arts.foldl
    (fun acc rows =>
      ((loadOneWeatherArtifact acc.1 rows).1,
       acc.2 + (loadOneWeatherArtifact acc.1 rows).2))
    (createTableIfAbsent db "weather", 0))

/-- Environment of one loader run: whether `psycopg2.connect` succeeds,
the dimension/fact source files by table name, an oracle for an unexpected
database error during a given table's insert, whether `data/weather/`
exists, and the `weather_*.csv` artifacts found there (already
filename-sorted). -/
structure LoaderEnv where
  connectOk : Bool
  files : String → Option (List Row)
  dimFault : String → Bool
  weatherDirExists : Bool
  weatherFiles : List (List Row)

/-- How the loader process terminates. -/
inductive RunOutcome where
  | normal : RunOutcome
  | exitNonZero : RunOutcome
deriving DecidableEq

/-- Observable result of one loader run: termination mode, the
`success_count` over dimension/fact tables, whether the
`Successfully loaded N/8 tables` summary line was printed, and the final
sink state. -/
structure RunResult where
  outcome : RunOutcome
  successCount : Nat
  successReported : Bool
  db : Database

/-- The `for table_name, csv_path in CSV_FILES.items()` loop of `main`:
returns the sink state, the success count, and whether some table load
raised (which the loop does not catch, so the run aborts). -/
def runDimLoads (env : LoaderEnv) :
    List String → Database → Nat → Database × Nat × Bool
  | [], db, n => (db, n, false)
  | t :: ts, db, n =>
    match load_csv_to_table (env.dimFault t) db t (env.files t) with
    | (Except.error _, db') => (db', n, true)
    | (Except.ok ok, db') =>
      runDimLoads env ts db' (n + if ok then 1 else 0)

/-- `main` of `scripts/load_csv_data.py`.  Mirrors the control flow
faithfully, including the final `if weather_count > 0:` summary line:
`weather_count` is a local assigned only inside the
`if weather_dir.exists(): if weather_files:` branch, modelled as
`Option Nat`; reading it while unassigned raises `UnboundLocalError`,
which the trailing `except Exception` turns into `sys.exit(1)`.  The
`success_count` summary is printed before that read. -/
def mainModel (db : Database) (env : LoaderEnv) : RunResult :=
  if env.connectOk then
    match runDimLoads env CSV_FILES db 0 with
    | (db1, count, faulted) =>
      if faulted then ⟨RunOutcome.exitNonZero, count, false, db1⟩
      else
        let step :=
          if env.weatherDirExists then
            if env.weatherFiles.isEmpty then (db1, none)
            else
              match loadWeatherPhase db1 env.weatherFiles with
              | (dbw, n) => (dbw, some n)
          else (db1, (none : Option Nat))
        match step with
        | (db2, some _) => ⟨RunOutcome.normal, count, true, db2⟩
        | (db2, none) => ⟨RunOutcome.exitNonZero, count, true, db2⟩
  else ⟨RunOutcome.exitNonZero, 0, false, db⟩

/-- Spec-side restatement of the dict-based deduplication of
`load_outlets`: keep the first occurrence of each id, in insertion
order. -/
def dedupAux : List Outlet → List Outlet → List Outlet
  | [], acc => acc
  | o :: os, acc =>
    if acc.any (fun p => p.id == o.id) then dedupAux os acc
    else dedupAux os (acc ++ [o])

/-- The rows one artifact contributes to `raw.weather`: none for an empty
artifact, otherwise each row projected through the header columns with
`time` renamed to `datetime`. -/
def artifactInsertRows : List Row → List Row
  | [] => []
  | r0 :: rest =>
    (r0 :: rest).map (weatherInsertRow (r0.map (fun p => p.1)))

/-- All rows an artifact list contributes to `raw.weather`, in load
order. -/
def insertedOf (arts : List (List Row)) : List Row :=
  (arts.map artifactInsertRows).flatten

/-! ### Concrete inputs used by counterexamples, scenarios and witnesses -/

/-- A concrete weather record for round-trip witnesses. -/
def c5Rec : Record :=
  ⟨7, "N", 40, -75, "2024-01-01T05:00", some 3, none, some 55⟩

/-- Catalog on which literal first-wins fails: the first row bearing id 1
has the sentinel (0.0, 0.0) location. -/
def c2CexRows : List RawRow :=
  [⟨1, "A", some 0, some 0⟩, ⟨1, "B", some 41, some (-76)⟩]

/-- The duplicate-id scenario of the spec: `(1, "A", 40.0, -75.0)`
followed by `(1, "B", 41.0, -76.0)`. -/
def c2ScenRows : List RawRow :=
  [⟨1, "A", some 40, some (-75)⟩, ⟨1, "B", some 41, some (-76)⟩]

/-- Catalog with an empty-string coordinate row (coerced to `0.0`) and one
valid row. -/
def c7Rows : List RawRow :=
  [⟨1, "A", none, none⟩, ⟨2, "B", some 40, some (-75)⟩]

/-- The hourly section of the spec's end-to-end fetch scenario. -/
def scenHourly : Hourly :=
  ⟨["2023-12-31T23:00", "2024-01-01T00:00",
    "2024-01-02T00:00", "2024-01-02T01:00"], [], [], []⟩

/-- Window start of the fetch scenario, `2024-01-01T00:00`. -/
def scenStart : Nat := (fromisoformat "2024-01-01T00:00").getD 0

/-- Window end of the fetch scenario, `2024-01-02T00:00`. -/
def scenEnd : Nat := (fromisoformat "2024-01-02T00:00").getD 0

/-- A fixed outlet used to instantiate per-outlet statements. -/
def scenOutlet : Outlet := ⟨1, "A", 40, -75⟩

/-- Hourly section whose measurement arrays are shorter than its time
array (wind has one entry, the other two are absent). -/
def c3Hourly : Hourly :=
  ⟨["2024-01-01T00:00", "2024-01-01T01:00"], [some 5], [], []⟩

/-- Loader environment with a working connection and no weather artifact
directory (the failing input of the `weather_count` bug). -/
def envNoArtifacts : LoaderEnv :=
  ⟨true, fun _ => none, fun _ => false, false, []⟩

/-- Same environment, but with one weather artifact present. -/
def envOneArtifact : LoaderEnv :=
  ⟨true, fun _ => none, fun _ => false, true,
   [[[("time", "2024-01-01T00:00")]]]⟩

end Outlets

namespace Outlets

/-! ### Catalog loading: characterization lemmas -/

lemma dedupAux_cons_mem (o : Outlet) (os acc : List Outlet)
    (h : acc.any (fun p => p.id == o.id) = true) :
    dedupAux (o :: os) acc = dedupAux os acc := by
  simp [dedupAux, h]

lemma dedupAux_cons_new (o : Outlet) (os acc : List Outlet)
    (h : acc.any (fun p => p.id == o.id) = false) :
    dedupAux (o :: os) acc = dedupAux os (acc ++ [o]) := by
  simp [dedupAux, h]

lemma loadOutletsAux_eq (rows : List RawRow) :
    ∀ acc, loadOutletsAux rows acc =
      dedupAux ((rows.filter validRow).map rowOutlet) acc := by
  induction rows with
  | nil => intro acc; simp [loadOutletsAux, dedupAux]
  | cons r rest ih =>
    intro acc
    by_cases hc : rowLat r = 0 ∧ rowLon r = 0
    · simp [loadOutletsAux, hc, validRow, List.filter_cons, ih]
    · have hv : validRow r = true := by simp [validRow, hc]
      rw [loadOutletsAux, if_neg hc, List.filter_cons, if_pos hv,
        List.map_cons]
      have hid : (rowOutlet r).id = r.id := rfl
      by_cases ha : acc.any (fun o => o.id == r.id) = true
      · rw [dedupAux_cons_mem _ _ _ (by rw [hid]; exact ha), if_pos ha, ih]
      · have ha' : acc.any (fun o => o.id == r.id) = false := by
          cases hb : acc.any (fun o => o.id == r.id) with
          | false => rfl
          | true => exact absurd hb ha
        rw [dedupAux_cons_new _ _ _ (by rw [hid]; exact ha'), if_neg ha, ih]

lemma mem_dedupAux :
    ∀ (os acc : List Outlet) (o : Outlet),
      o ∈ dedupAux os acc → o ∈ acc ∨ o ∈ os := by
  intro os
  induction os with
  | nil => intro acc o h; exact Or.inl (by simpa [dedupAux] using h)
  | cons o' os ih =>
    intro acc o h
    by_cases hc : acc.any (fun p => p.id == o'.id) = true
    · rw [dedupAux_cons_mem _ _ _ hc] at h
      rcases ih acc o h with h1 | h1
      · exact Or.inl h1
      · exact Or.inr (List.mem_cons_of_mem _ h1)
    · have hc' : acc.any (fun p => p.id == o'.id) = false := by
        cases hb : acc.any (fun p => p.id == o'.id) with
        | false => rfl
        | true => exact absurd hb hc
      rw [dedupAux_cons_new _ _ _ hc'] at h
      rcases ih (acc ++ [o']) o h with h1 | h1
      · rcases List.mem_append.mp h1 with h2 | h2
        · exact Or.inl h2
        · simp only [List.mem_singleton] at h2
          exact Or.inr (by simp [h2])
      · exact Or.inr (List.mem_cons_of_mem _ h1)

lemma dedupAux_filter_stable (i : Int) :
    ∀ (os acc : List Outlet),
      acc.any (fun p => p.id == i) = true →
      (dedupAux os acc).filter (fun o => o.id == i) =
        acc.filter (fun o => o.id == i) := by
  intro os
  induction os with
  | nil => intro acc _; simp [dedupAux]
  | cons o' os ih =>
    intro acc h
    by_cases hc : acc.any (fun p => p.id == o'.id) = true
    · rw [dedupAux_cons_mem _ _ _ hc]
      exact ih acc h
    · have hc' : acc.any (fun p => p.id == o'.id) = false := by
        cases hb : acc.any (fun p => p.id == o'.id) with
        | false => rfl
        | true => exact absurd hb hc
      rw [dedupAux_cons_new _ _ _ hc']
      have hne : (o'.id == i) = false := by
        cases hb : (o'.id == i) with
        | false => rfl
        | true =>
          exfalso
          apply hc
          have hoi : o'.id = i := by simpa using hb
          simpa [hoi] using h
      rw [ih (acc ++ [o']) (by simp [List.any_append, h])]
      simp [List.filter_append, hne]

lemma dedupAux_filter_find (i : Int) :
    ∀ (os acc : List Outlet) (o : Outlet),
      acc.any (fun p => p.id == i) = false →
      os.find? (fun p => p.id == i) = some o →
      (dedupAux os acc).filter (fun p => p.id == i) = [o] := by
  intro os
  induction os with
  | nil => intro acc o _ hf; simp [List.find?] at hf
  | cons o' os ih =>
    intro acc o h hf
    have haccf : acc.filter (fun p => p.id == i) = [] := by
      rw [List.filter_eq_nil_iff]
      intro a ha
      exact List.any_eq_false.mp h a ha
    by_cases hcase : (o'.id == i) = true
    · have ho : o = o' := by
        rw [List.find?_cons_of_pos (p := fun p => p.id == i) os hcase] at hf
        exact (Option.some_inj.mp hf).symm
      have hacc' : acc.any (fun p => p.id == o'.id) = false := by
        have hoi : o'.id = i := by simpa using hcase
        simpa [hoi] using h
      rw [dedupAux_cons_new _ _ _ hacc']
      rw [dedupAux_filter_stable i os (acc ++ [o'])
        (by simp [List.any_append, hcase])]
      simp [List.filter_append, haccf, hcase, ho]
    · have hcf : (o'.id == i) = false := by
        cases hb : (o'.id == i) with
        | false => rfl
        | true => exact absurd hb hcase
      rw [List.find?_cons_of_neg (p := fun p => p.id == i) os
        (by simp [hcf])] at hf
      by_cases hc : acc.any (fun p => p.id == o'.id) = true
      · rw [dedupAux_cons_mem _ _ _ hc]
        exact ih acc o h hf
      · have hc' : acc.any (fun p => p.id == o'.id) = false := by
          cases hb : acc.any (fun p => p.id == o'.id) with
          | false => rfl
          | true => exact absurd hb hc
        rw [dedupAux_cons_new _ _ _ hc']
        exact ih (acc ++ [o']) o (by simp [List.any_append, h, hcf]) hf

lemma load_outlets_filter_eq (rows : List RawRow) (i : Int) (r : RawRow)
    (h : (rows.filter validRow).find? (fun p => p.id == i) = some r) :
    (load_outlets rows).filter (fun o => o.id == i) = [rowOutlet r] := by
  rw [load_outlets, loadOutletsAux_eq rows []]
  apply dedupAux_filter_find i _ [] (rowOutlet r) (by simp)
  rw [List.find?_map]
  have hco : ((fun p : Outlet => p.id == i) ∘ rowOutlet) =
      (fun p : RawRow => p.id == i) := rfl
  rw [hco, h]
  rfl

/-! ### Claim C2 (corrected) -/

/-- C2, counterexample: two rows share id 1, `load_outlets` retains
exactly one outlet for it, but its name is `"B"`, not the name `"A"` of
the first-encountered row with that id — the first row is skipped as a
sentinel before deduplication, so literal first-wins fails. -/
theorem load_outlets_first_wins_cex :
    load_outlets c2CexRows = [⟨1, "B", 41, -76⟩] ∧
    c2CexRows.head?.map RawRow.name = some "A" := by
  constructor <;> rfl

/-- C2, amended: among the rows with a valid (non-sentinel) location,
first-wins holds — whenever the first valid row bearing id `i` is `r`,
`load_outlets` retains exactly one outlet with that id, carrying `r`'s
name, parsed latitude and parsed longitude. -/
theorem load_outlets_first_valid_wins (rows : List RawRow) (i : Int)
    (r : RawRow)
    (h : (rows.filter validRow).find? (fun p => p.id == i) = some r) :
    ((load_outlets rows).filter (fun o => o.id == i)).length = 1 ∧
    (load_outlets rows).filter (fun o => o.id == i) =
      [⟨r.id, r.name, rowLat r, rowLon r⟩] := by
  have he := load_outlets_filter_eq rows i r h
  exact ⟨by rw [he]; rfl, he⟩

/-- C2, witness: the spec's duplicate-id scenario — both rows valid, the
catalog keeps exactly the first row's outlet `(1, "A", 40.0, -75.0)`. -/
theorem load_outlets_first_valid_wins_witness :
    ((load_outlets c2ScenRows).filter (fun o => o.id == 1)).length = 1 ∧
    (load_outlets c2ScenRows).filter (fun o => o.id == 1) =
      [⟨1, "A", 40, -75⟩] :=
  load_outlets_first_valid_wins c2ScenRows 1 ⟨1, "A", some 40, some (-75)⟩
    (by decide)

/-! ### Claim C7 -/

/-- C7: every outlet returned by `load_outlets` has a non-sentinel
location, so no catalog row whose parsed latitude and longitude are both
`0.0` (including empty cells coerced to `0.0`) contributes an outlet. -/
theorem load_outlets_excludes_sentinel (rows : List RawRow) (o : Outlet)
    (ho : o ∈ load_outlets rows) :
    ¬(o.latitude = 0 ∧ o.longitude = 0) := by
  rw [load_outlets, loadOutletsAux_eq rows []] at ho
  rcases mem_dedupAux _ _ _ ho with h | h
  · simp at h
  · rcases List.mem_map.mp h with ⟨r, hr, rfl⟩
    have hv := (List.mem_filter.mp hr).2
    intro hcon
    rw [validRow] at hv
    exact of_decide_eq_true hv hcon

/-- C7, witness: on a catalog whose first row has empty coordinate cells,
the only loaded outlet is the valid one, and it is non-sentinel. -/
theorem load_outlets_excludes_sentinel_witness :
    ¬((⟨2, "B", 40, -75⟩ : Outlet).latitude = 0 ∧
      (⟨2, "B", 40, -75⟩ : Outlet).longitude = 0) :=
  load_outlets_excludes_sentinel c7Rows ⟨2, "B", 40, -75⟩ (by decide)

/-! ### Claim C10 -/

/-- C10: when the first row bearing id `i` has the sentinel (0.0, 0.0)
location, it is skipped before deduplication, and the first later row with
that id and a valid location is the one retained in the catalog. -/
theorem load_outlets_sentinel_first_skipped (pre : List RawRow)
    (r0 : RawRow) (rest : List RawRow) (r : RawRow) (i : Int)
    (hpre : ∀ p ∈ pre, (p.id == i) = false)
    (_h0 : r0.id = i) (h0inv : validRow r0 = false)
    (hfind : (rest.filter validRow).find? (fun p => p.id == i) = some r) :
    (load_outlets (pre ++ r0 :: rest)).filter (fun o => o.id == i) =
      [rowOutlet r] := by
  apply load_outlets_filter_eq
  rw [List.filter_append, List.filter_cons, h0inv]
  simp only [Bool.false_eq_true, if_false, List.find?_append]
  have hnone : (pre.filter validRow).find? (fun p => p.id == i) = none := by
    rw [List.find?_eq_none]
    intro x hx
    have hne := hpre x (List.mem_of_mem_filter hx)
    simp [hne]
  rw [hnone, hfind]
  rfl

/-- C10, witness: catalog `[(1, "A", 0.0, 0.0), (1, "B", 41.0, -76.0)]` —
the sentinel first row is skipped and the valid later duplicate is
retained. -/
theorem load_outlets_sentinel_first_skipped_witness :
    (load_outlets ([] ++ (⟨1, "A", some 0, some 0⟩ : RawRow) ::
        [⟨1, "B", some 41, some (-76)⟩])).filter (fun o => o.id == 1) =
      [rowOutlet ⟨1, "B", some 41, some (-76)⟩] :=
  load_outlets_sentinel_first_skipped [] ⟨1, "A", some 0, some 0⟩
    [⟨1, "B", some 41, some (-76)⟩] ⟨1, "B", some 41, some (-76)⟩ 1
    (by simp) rfl (by decide) (by decide)

/-! ### Claim C1 -/

/-- C1: `parse_weather_data` emits a record at index `i` of the time array
exactly when the (Z-stripped) timestamp at `i` parses and the parsed value
lies in the closed window `[s, e]`; every emitted record's parsed
timestamp lies in the window; and on the spec's end-to-end scenario —
window `2024-01-01T00:00` to `2024-01-02T00:00` over the four listed
times — exactly 2 records are emitted. -/
theorem parse_weather_data_window (h : Hourly) (o : Outlet) (s e : Nat) :
    (∀ i, i < h.time.length →
      ((emitAt h o s e i).isSome ↔
        ∃ ts t, h.time[i]? = some ts ∧
          fromisoformat (stripZ ts) = some t ∧ s ≤ t ∧ t ≤ e)) ∧
    (∀ r ∈ parse_weather_data (some h) o s e,
      ∃ t, fromisoformat (stripZ r.time) = some t ∧
        s ≤ t ∧ t ≤ e) ∧
    (parse_weather_data (some scenHourly) scenOutlet scenStart scenEnd).length = 2 := by
  refine ⟨?_, ?_, ?_⟩
  · intro i _
    cases hts : h.time[i]? with
    | none => simp [emitAt, hts]
    | some ts =>
      cases hp : fromisoformat (stripZ ts) with
      | none => simp [emitAt, hts, hp]
      | some t =>
        by_cases hw : s ≤ t ∧ t ≤ e
        · simp only [emitAt, hts, hp, if_pos hw, Option.isSome_some,
            true_iff]
          exact ⟨ts, t, rfl, hp, hw.1, hw.2⟩
        · simp [emitAt, hts, hp, hw]
  · intro r hr
    rw [parse_weather_data] at hr
    rcases List.mem_filterMap.mp hr with ⟨i, _, hf⟩
    unfold emitAt at hf
    split at hf
    · exact absurd hf (by simp)
    · rename_i ts hts
      split at hf
      · exact absurd hf (by simp)
      · rename_i t hp
        split at hf
        · rename_i hw
          have hrec := Option.some_inj.mp hf
          refine ⟨t, ?_, hw.1, hw.2⟩
          rw [← hrec]
          exact hp
        · exact absurd hf (by simp)
  · decide

/-- C1, witness: index 1 of the scenario (timestamp `2024-01-01T00:00`) is
in the window, so a record is emitted there. -/
theorem parse_weather_data_window_witness :
    (emitAt scenHourly scenOutlet scenStart scenEnd 1).isSome :=
  ((parse_weather_data_window scenHourly scenOutlet scenStart scenEnd).1 1
    (by decide)).mpr
    ⟨"2024-01-01T00:00", scenStart, by decide, by decide, by decide,
     by decide⟩

/-! ### Claim C3 -/

/-- C3: `parse_weather_data` is total on responses whose measurement
arrays are shorter than the time array (or absent, `[]`): every emitted
record comes from some index `i` of the time array, and each measurement
whose array does not reach index `i` is null in the record. -/
theorem parse_weather_data_short_arrays (h : Hourly) (o : Outlet)
    (s e : Nat) :
    ∀ r ∈ parse_weather_data (some h) o s e,
      ∃ i, i < h.time.length ∧ emitAt h o s e i = some r ∧
        (h.wind_speed_10m.length ≤ i → r.wind_speed_10m = none) ∧
        (h.temperature_2m.length ≤ i → r.temperature_2m = none) ∧
        (h.relative_humidity_2m.length ≤ i →
          r.relative_humidity_2m = none) := by
  intro r hr
  rw [parse_weather_data] at hr
  rcases List.mem_filterMap.mp hr with ⟨i, hi, hf⟩
  refine ⟨i, List.mem_range.mp hi, hf, ?_, ?_, ?_⟩
  all_goals
    intro hlen
    unfold emitAt at hf
    split at hf
  · exact absurd hf (by simp)
  · rename_i ts _
    split at hf
    · exact absurd hf (by simp)
    · rename_i t _
      split at hf
      · have hrec := Option.some_inj.mp hf
        rw [← hrec]
        show (h.wind_speed_10m[i]?).join = none
        rw [List.getElem?_eq_none hlen]
        rfl
      · exact absurd hf (by simp)
  · exact absurd hf (by simp)
  · rename_i ts _
    split at hf
    · exact absurd hf (by simp)
    · rename_i t _
      split at hf
      · have hrec := Option.some_inj.mp hf
        rw [← hrec]
        show (h.temperature_2m[i]?).join = none
        rw [List.getElem?_eq_none hlen]
        rfl
      · exact absurd hf (by simp)
  · exact absurd hf (by simp)
  · rename_i ts _
    split at hf
    · exact absurd hf (by simp)
    · rename_i t _
      split at hf
      · have hrec := Option.some_inj.mp hf
        rw [← hrec]
        show (h.relative_humidity_2m[i]?).join = none
        rw [List.getElem?_eq_none hlen]
        rfl
      · exact absurd hf (by simp)

/-- C3, witness: on an hourly section with two timestamps, one wind entry
and no temperature or humidity arrays, the record emitted at index 1 has
all three measurements null. -/
theorem parse_weather_data_short_arrays_witness :
    ∃ i, i < c3Hourly.time.length ∧
      emitAt c3Hourly scenOutlet scenStart scenEnd i =
        some ⟨1, "A", 40, -75, "2024-01-01T01:00", none, none, none⟩ ∧
      (c3Hourly.wind_speed_10m.length ≤ i →
        (⟨1, "A", 40, -75, "2024-01-01T01:00", none, none, none⟩ :
          Record).wind_speed_10m = none) ∧
      (c3Hourly.temperature_2m.length ≤ i →
        (⟨1, "A", 40, -75, "2024-01-01T01:00", none, none, none⟩ :
          Record).temperature_2m = none) ∧
      (c3Hourly.relative_humidity_2m.length ≤ i →
        (⟨1, "A", 40, -75, "2024-01-01T01:00", none, none, none⟩ :
          Record).relative_humidity_2m = none) :=
  parse_weather_data_short_arrays c3Hourly scenOutlet scenStart scenEnd
    ⟨1, "A", 40, -75, "2024-01-01T01:00", none, none, none⟩ (by decide)

/-! ### Database lemmas -/

lemma lookupTable_cons (a : String) (b : List Row) (db : Database)
    (t : String) :
    lookupTable ((a, b) :: db) t = if a = t then some b else lookupTable db t := by
  by_cases h : a = t <;> simp [lookupTable, List.find?_cons, h]

lemma lookupTable_truncate (db : Database) (t : String) :
    lookupTable (truncateTable db t) t =
      (lookupTable db t).map (fun _ => []) := by
  induction db with
  | nil => rfl
  | cons p db ih =>
    obtain ⟨a, b⟩ := p
    by_cases h : a = t
    · simp [truncateTable, lookupTable_cons, h]
    · simpa [truncateTable, lookupTable_cons, h] using ih

lemma lookupTable_append (db : Database) (t : String) (rs : List Row) :
    lookupTable (appendRows db t rs) t =
      (lookupTable db t).map (fun b => b ++ rs) := by
  induction db with
  | nil => rfl
  | cons p db ih =>
    obtain ⟨a, b⟩ := p
    by_cases h : a = t
    · simp [appendRows, lookupTable_cons, h]
    · simpa [appendRows, lookupTable_cons, h] using ih

lemma lookupTable_create (db : Database) (t : String) :
    lookupTable (createTableIfAbsent db t) t =
      some ((lookupTable db t).getD []) := by
  rw [createTableIfAbsent]
  by_cases h : tableExists db t
  · rw [if_pos h]
    rw [tableExists] at h
    rcases Option.isSome_iff_exists.mp h with ⟨p, hp⟩
    simp [lookupTable, hp]
  · rw [if_neg h]
    rw [tableExists] at h
    have hn : db.find? (fun p => p.1 = t) = none := by
      cases hf : db.find? (fun p => p.1 = t) with
      | none => rfl
      | some p => rw [hf] at h; simp at h
    simp [lookupTable, List.find?_append, hn, List.find?]

/-! ### Claim C8 -/

/-- C8: `load_csv_to_table` returns the failure value `False` without
raising exactly when the source file is missing or has no data rows; an
unexpected error during the insert is not caught and propagates. -/
theorem load_csv_to_table_failure_contract (fault : Bool) (db : Database)
    (t : String) (file : Option (List Row)) :
    ((load_csv_to_table fault db t file).1 = Except.ok false ↔
      (file = none ∨ file = some [])) ∧
    ((load_csv_to_table fault db t file).1 = Except.error () ↔
      (fault = true ∧ ∃ r rs, file = some (r :: rs))) := by
  rcases file with _ | (_ | ⟨r, rs⟩)
  · simp [load_csv_to_table]
  · simp [load_csv_to_table]
  · cases fault with
    | false => simp [load_csv_to_table]
    | true =>
      refine ⟨by simp [load_csv_to_table], ?_, fun _ => by simp [load_csv_to_table]⟩
      intro _
      exact ⟨rfl, r, rs, rfl⟩

/-- C8, witness: a missing file yields `.ok false`; a faulting insert over
a one-row file yields a propagated error. -/
theorem load_csv_to_table_failure_contract_witness :
    (load_csv_to_table false [] "org" none).1 = Except.ok false ∧
    (load_csv_to_table true [] "org" (some [[("id", "1")]])).1 =
      Except.error () :=
  ⟨(load_csv_to_table_failure_contract false [] "org" none).1.mpr
      (Or.inl rfl),
   (load_csv_to_table_failure_contract true [] "org"
      (some [[("id", "1")]])).2.mpr ⟨rfl, [("id", "1")], [], rfl⟩⟩

/-! ### Claim C9 -/

/-- C9: `load_csv_to_table` creates and truncates the target table before
checking the source file, so whenever it reports failure for a missing or
empty file the target table has already been emptied. -/
theorem load_csv_to_table_truncates_before_check (fault : Bool)
    (db : Database) (t : String) (file : Option (List Row))
    (h : file = none ∨ file = some []) :
    ∃ db', load_csv_to_table fault db t file = (Except.ok false, db') ∧
      lookupTable db' t = some [] := by
  have hl : lookupTable (truncateTable (createTableIfAbsent db t) t) t =
      some [] := by
    rw [lookupTable_truncate, lookupTable_create]
    rfl
  rcases h with rfl | rfl
  · exact ⟨_, rfl, hl⟩
  · exact ⟨_, rfl, hl⟩

/-- C9, witness: loading table `org` from a missing file empties its
previous one-row contents. -/
theorem load_csv_to_table_truncates_before_check_witness :
    ∃ db', load_csv_to_table false [("org", [[("id", "1")]])] "org" none =
      (Except.ok false, db') ∧ lookupTable db' "org" = some [] :=
  load_csv_to_table_truncates_before_check false [("org", [[("id", "1")]])]
    "org" none (Or.inl rfl)

/-! ### Weather-append lemmas -/

lemma loadOne_weather (db : Database) (rows : List Row) (b : List Row)
    (hb : lookupTable db "weather" = some b) :
    lookupTable (loadOneWeatherArtifact db rows).1 "weather" =
      some (b ++ artifactInsertRows rows) := by
  rcases rows with _ | ⟨r0, rest⟩
  · simp [loadOneWeatherArtifact, artifactInsertRows, hb]
  · rw [loadOneWeatherArtifact]
    simp [artifactInsertRows, lookupTable_append, hb]

lemma weatherFold_lookup (arts : List (List Row)) :
    ∀ (db : Database) (n : Nat) (b : List Row),
      lookupTable db "weather" = some b →
      lookupTable ((arts.foldl
        (fun acc rows =>
          ((loadOneWeatherArtifact acc.1 rows).1,
           acc.2 + (loadOneWeatherArtifact acc.1 rows).2)) (db, n)).1)
        "weather" = some (b ++ insertedOf arts) := by
  induction arts with
  | nil => intro db n b hb; simpa [insertedOf] using hb
  | cons rows arts ih =>
    intro db n b hb
    rw [List.foldl_cons]
    have h1 := loadOne_weather db rows b hb
    have h2 := ih (loadOneWeatherArtifact db rows).1
      (n + (loadOneWeatherArtifact db rows).2) _ h1
    simpa [insertedOf, List.append_assoc] using h2

lemma loadWeatherPhase_lookup (db : Database) (arts : List (List Row)) :
    lookupTable (loadWeatherPhase db arts).1 "weather" =
      some ((lookupTable db "weather").getD [] ++ insertedOf arts) := by
  rw [loadWeatherPhase]
  exact weatherFold_lookup arts _ 0 _ (lookupTable_create db "weather")

lemma recordToCsvRow_columns (rec : Record) :
    (recordToCsvRow rec).map (fun p => p.1) = weatherFieldnames := rfl

/-! ### Claim C5 -/

/-- C5: for every non-empty record list, the rows the loader inserts into
the weather table from the CSV artifact written by `save_to_csv` carry the
artifact's `time` column values in their `datetime` column, value for
value in artifact order, and every other column unchanged. -/
theorem weather_roundtrip_rename (records : List Record) (db : Database)
    (hne : records ≠ []) :
    ∃ arows, save_to_csv records = some arows ∧
      lookupTable (loadWeatherPhase db [arows]).1 "weather" =
        some ((lookupTable db "weather").getD []
          ++ arows.map (weatherInsertRow weatherFieldnames)) ∧
      ∀ a ∈ arows,
        rowCell (weatherInsertRow weatherFieldnames a) "datetime" =
          rowCell a "time" ∧
        ∀ c ∈ weatherFieldnames, c ≠ "time" →
          rowCell (weatherInsertRow weatherFieldnames a) c = rowCell a c := by
  rcases records with _ | ⟨rec0, recs⟩
  · exact absurd rfl hne
  refine ⟨(rec0 :: recs).map recordToCsvRow, by rw [save_to_csv]; simp,
    ?_, ?_⟩
  · rw [loadWeatherPhase_lookup]
    have hins : insertedOf [(rec0 :: recs).map recordToCsvRow] =
        ((rec0 :: recs).map recordToCsvRow).map
          (weatherInsertRow weatherFieldnames) := by
      simp only [insertedOf, List.map_cons, List.map_nil, List.flatten,
        List.append_nil, artifactInsertRows, recordToCsvRow_columns]
    rw [hins]
  · intro a ha
    rcases List.mem_map.mp ha with ⟨rec, _, rfl⟩
    refine ⟨rfl, ?_⟩
    intro c hc hcne
    simp only [weatherFieldnames, List.mem_cons, List.not_mem_nil,
      or_false] at hc
    rcases hc with rfl | rfl | rfl | rfl | rfl | rfl | rfl | rfl
    · rfl
    · rfl
    · rfl
    · rfl
    · exact absurd rfl hcne
    · rfl
    · rfl
    · rfl

/-- C5, witness: one concrete record round-trips with only the
`time`-to-`datetime` rename. -/
theorem weather_roundtrip_rename_witness :
    ∃ arows, save_to_csv [c5Rec] = some arows ∧
      lookupTable (loadWeatherPhase [] [arows]).1 "weather" =
        some ((lookupTable ([] : Database) "weather").getD []
          ++ arows.map (weatherInsertRow weatherFieldnames)) ∧
      ∀ a ∈ arows,
        rowCell (weatherInsertRow weatherFieldnames a) "datetime" =
          rowCell a "time" ∧
        ∀ c ∈ weatherFieldnames, c ≠ "time" →
          rowCell (weatherInsertRow weatherFieldnames a) c = rowCell a c :=
  weather_roundtrip_rename [c5Rec] [] (by decide)

/-! ### Claim C6 -/

/-- C6: the weather load path appends and never truncates — loading the
same artifact set a second time appends the same rows again, so starting
from an empty sink the weather table ends with every inserted row exactly
twice. -/
theorem weather_load_appends_duplicates (db : Database)
    (arts : List (List Row)) :
    lookupTable (loadWeatherPhase (loadWeatherPhase db arts).1 arts).1
        "weather" =
      some ((lookupTable (loadWeatherPhase db arts).1 "weather").getD []
        ++ insertedOf arts) ∧
    (lookupTable (loadWeatherPhase (loadWeatherPhase [] arts).1 arts).1
        "weather").getD [] = insertedOf arts ++ insertedOf arts ∧
    ∀ r : Row,
      ((lookupTable (loadWeatherPhase (loadWeatherPhase [] arts).1 arts).1
          "weather").getD []).count r = 2 * (insertedOf arts).count r := by
  refine ⟨loadWeatherPhase_lookup _ _, ?_, ?_⟩
  · rw [loadWeatherPhase_lookup, loadWeatherPhase_lookup]
    simp [lookupTable]
  · intro r
    rw [loadWeatherPhase_lookup, loadWeatherPhase_lookup]
    simp [lookupTable, List.count_append, two_mul]

/-! ### Claim C4 -/

/-- C4, code bug: with a working connection and no weather artifacts
(`data/weather/` absent), `main` still prints the success-count summary
but then reads the never-assigned local `weather_count`, raising
`UnboundLocalError`, which the generic handler turns into `sys.exit(1)` —
the run does not terminate normally, although the same run with one
artifact present does. -/
theorem loader_main_weather_count_bug :
    (mainModel [] envNoArtifacts).outcome = RunOutcome.exitNonZero ∧
    (mainModel [] envNoArtifacts).successReported = true ∧
    (mainModel [] envOneArtifact).outcome = RunOutcome.normal := by
  refine ⟨?_, ?_, ?_⟩ <;> rfl

end Outlets
